import Mathlib

/-!
Shallow embedding of the micropython_stuff repository and verification of
its specification claims.

Source files embedded:
* `src/tachometer.py` — edge-counting tachometer (`Tachometer`)
* `src/temp_sensor.py` — TMP36 (ADC) and SHT31D (I2C) converters and the
  timer-driven `SensorTemp` sampler
* `src/weather_station/sht31d.py` — `SHT31D.get_data`
* `src/weather_station/weather_station.py` — `publish_data`

Conventions: Python true division on numbers is embedded as division in `ℚ`
(the values involved are exact in both float and rational arithmetic at the
scales the claims use); Python `//` on non-negative ints is `Nat` division;
byte sequences are `List ℕ`; a `val=None` default parameter is `Option`.
-/

namespace MPS

/-! ### Tachometer (src/tachometer.py)

State touched by `Tachometer.main` and the `measure` ISR: the IRQ counter
and whether IRQs are currently enabled (`pyb.disable_irq`/`pyb.enable_irq`).
-/

structure TachState where
  irq_count : ℕ
  irqEnabled : Bool
deriving DecidableEq, Repr

/-- The `measure` interrupt handler: `self.irq_count += 1`.  It is delivered
by the hardware only while IRQs are enabled. -/
def measure (s : TachState) : TachState :=
  if s.irqEnabled then { s with irq_count := s.irq_count + 1 } else s

/-- Embedding of `pyb.disable_irq()` acting on the tachometer state. -/
def disableIRQ (s : TachState) : TachState :=
  { s with irqEnabled := false }

/-- Embedding of `pyb.enable_irq()` acting on the tachometer state. -/
def enableIRQ (s : TachState) : TachState :=
  { s with irqEnabled := true }

/-- The RPM value computed at an interval boundary in `Tachometer.main`:
`rpm = self.irq_count * 60 / (2 * self.blades)`.  The reporting-interval
length `self.sample_period` is part of the object state but does not occur
in this expression; it is kept as an (unused) argument to record that fact. -/
def tachRPM (irq_count blades _sample_period : ℕ) : ℚ :=
  (irq_count : ℚ) * 60 / (2 * blades)

/-- The interval-boundary critical section of `Tachometer.main`:
disable IRQs, read `self.irq_count` (to compute the RPM), reset
`self.irq_count = 0`, re-enable IRQs.  Returns the pre-reset count together
with the state after the section. -/
def readAndReset (s : TachState) : ℕ × TachState :=
  let s1 := disableIRQ s
  let count := s1.irq_count
  let s2 := { s1 with irq_count := 0 }
  (count, enableIRQ s2)

/-- One step of the `while` loop of `Tachometer.main`, counting iterations:
the loop body runs while `num_seconds < max_duration // sample_period`
(here `quota`), and each iteration advances `num_seconds` by
`sample_period`.  `fuel` bounds the recursion; it is chosen large enough
that it is never exhausted while the loop condition still holds. -/
def tachLoop (sample_period quota : ℕ) : ℕ → ℕ → ℕ
  | 0, _ => 0
  | fuel + 1, num_seconds =>
    if num_seconds < quota then
      tachLoop sample_period quota fuel (num_seconds + sample_period) + 1
    else 0

/-- Number of measure-report cycles performed by one `Tachometer.main`
session: the loop starts at `num_seconds = 0` and compares against
`max_duration // sample_period`. -/
def tachCycles (sample_period max_duration : ℕ) : ℕ :=
  tachLoop sample_period (max_duration / sample_period)
    (max_duration / sample_period + 1) 0

/-- With positive step `i` and enough fuel, the loop from `s` toward the
bound `q` iterates exactly the number of multiples of `i` needed to reach
`q`, namely `⌈(q - s) / i⌉`. -/
lemma tachLoop_eq (i : ℕ) (hi : 0 < i) :
    ∀ fuel q s : ℕ, q ≤ s + fuel → tachLoop i q fuel s = (q - s + (i - 1)) / i := by
  intro fuel
  induction fuel with
  | zero =>
    intro q s hq
    simp only [tachLoop]
    have h1 : q - s = 0 := by omega
    rw [h1]
    exact (Nat.div_eq_of_lt (by omega)).symm
  | succ n ih =>
    intro q s hq
    simp only [tachLoop]
    by_cases h : s < q
    · rw [if_pos h, ih q (s + i) (by omega)]
      by_cases h3 : q ≤ s + i
      · have h4 : q - (s + i) = 0 := by omega
        obtain ⟨b, hb, hbi⟩ : ∃ b, q - s + (i - 1) = b + i ∧ b < i :=
          ⟨q - s - 1, by omega, by omega⟩
        rw [h4, hb, Nat.add_div_right _ hi, Nat.div_eq_of_lt (by omega),
          Nat.div_eq_of_lt hbi]
      · obtain ⟨b, hb⟩ : ∃ b, q - (s + i) + (i - 1) = b := ⟨_, rfl⟩
        have hb2 : q - s + (i - 1) = b + i := by omega
        rw [hb, hb2, Nat.add_div_right _ hi]
    · rw [if_neg h]
      have h1 : q - s = 0 := by omega
      rw [h1]
      exact (Nat.div_eq_of_lt (by omega)).symm

/-- Closed form for the cycle count of one tachometer session. -/
lemma tachCycles_eq (i d : ℕ) (hi : 0 < i) :
    tachCycles i d = (d / i + (i - 1)) / i := by
  unfold tachCycles
  rw [tachLoop_eq i hi _ _ 0 (by omega), Nat.sub_zero]

/-! ### TMP36 analog converter (src/temp_sensor.py)

`TMP36.get_temperature(val=None, fahrenheit=False)` starts with
`raw_val = val; if not raw_val: raw_val = self.read()`.  The body after the
falsiness check is `tmp36Convert`; the ADC reading that `self.read()` would
return is passed explicitly as `sensorRaw`.
-/

/-- Conversion body of `TMP36.get_temperature`:
`mv = raw_val * 3300/4095`, `celsius = (mv - 500)/10.0`,
`fahrenheit = celsius * 9.0/5.0 + 32`. -/
def tmp36Convert (raw_val : ℕ) (fahrenheit : Bool) : ℚ :=
  let mv : ℚ := (raw_val : ℚ) * 3300 / 4095
  let celsius : ℚ := (mv - 500) / 10
  let ratio : ℚ := 9 / 5
  if fahrenheit then celsius * ratio + 32 else celsius

/-- Embedding of `TMP36.get_temperature`.  Python `if not raw_val` is true
for `val=None` and for the falsy integer `0`, in which cases the fresh ADC
reading `sensorRaw` is converted instead of the supplied value. -/
def tmp36GetTemperature (sensorRaw : ℕ) (val : Option ℕ) (fahrenheit : Bool) : ℚ :=
  let raw_val : ℕ :=
    match val with
    | none => sensorRaw
    | some v => if v = 0 then sensorRaw else v
  tmp36Convert raw_val fahrenheit

/-! ### SHT31D digital converter (src/temp_sensor.py and
src/weather_station/sht31d.py)

Byte sequences are `List ℕ`.  Indexing uses `List.getD`; all inputs the
claims exercise are full 6-byte samples, so the default is never taken
(Python would raise `IndexError` on a short sample instead).
-/

/-- Raw temperature word: `(raw_val[0] << 8) + raw_val[1]`. -/
def sht31dRawTemp (raw_val : List ℕ) : ℕ :=
  (raw_val.getD 0 0) * 2 ^ 8 + raw_val.getD 1 0

/-- Raw humidity word: `(raw_val[3] << 8) + raw_val[4]`. -/
def sht31dRawHumidity (raw_val : List ℕ) : ℕ :=
  (raw_val.getD 3 0) * 2 ^ 8 + raw_val.getD 4 0

/-- Celsius formula of both SHT31D drivers: `175 * raw_temp/65535 - 45`. -/
def sht31dCelsius (raw_temp : ℕ) : ℚ :=
  175 * (raw_temp : ℚ) / 65535 - 45

/-- Direct Fahrenheit formula of both SHT31D drivers:
`315 * raw_temp/65535 - 49`. -/
def sht31dFahrenheit (raw_temp : ℕ) : ℚ :=
  315 * (raw_temp : ℚ) / 65535 - 49

/-- Conversion body of `SHT31D.get_temperature` (src/temp_sensor.py). -/
def sht31dConvert (raw_val : List ℕ) (fahrenheit : Bool) : ℚ :=
  let raw_temp := sht31dRawTemp raw_val
  if fahrenheit then sht31dFahrenheit raw_temp else sht31dCelsius raw_temp

/-- Embedding of `SHT31D.get_temperature` (src/temp_sensor.py).  Python
`if not raw_val` is true for `val=None` and for an empty byte sequence, in
which cases the fresh 6-byte I2C reading `sensorBytes` is converted. -/
def sht31dGetTemperature (sensorBytes : List ℕ) (val : Option (List ℕ))
    (fahrenheit : Bool) : ℚ :=
  let raw_val : List ℕ :=
    match val with
    | none => sensorBytes
    | some v => if v = [] then sensorBytes else v
  sht31dConvert raw_val fahrenheit

/-- Embedding of `SHT31D.get_data` (src/weather_station/sht31d.py) applied
to the 6-byte sample its `self._read()` returns: yields
`(temperature, humidity)` with `humidity = 100 * (raw_humidity/65535)`. -/
def sht31dGetData (raw_val : List ℕ) (fahrenheit : Bool) : ℚ × ℚ :=
  let raw_temp := sht31dRawTemp raw_val
  let raw_humidity := sht31dRawHumidity raw_val
  let temperature : ℚ :=
    if fahrenheit then sht31dFahrenheit raw_temp else sht31dCelsius raw_temp
  let humidity : ℚ := 100 * ((raw_humidity : ℚ) / 65535)
  (temperature, humidity)

/-! ### Deferred sampler termination (src/temp_sensor.py, `SensorTemp`)

State touched by `SensorTemp.get_temperature`: the elapsed-seconds counter
`self.seconds` and whether the periodic timer is still active
(`self.timer.deinit()` deactivates it).
-/

structure SamplerState where
  seconds : ℕ
  timerActive : Bool
deriving DecidableEq, Repr

/-- Embedding of one completed run of `SensorTemp.get_temperature`:
`self.seconds += 10`, then `if self.seconds > 1000: self.timer.deinit()`. -/
def samplerRun (s : SamplerState) : SamplerState :=
  let sec := s.seconds + 10
  { seconds := sec, timerActive := if 1000 < sec then false else s.timerActive }

/-- One period of the timer: a deferred run of `get_temperature` happens
only while the timer is active; after `deinit` the timer no longer fires
and the state is untouched. -/
def timerTick (s : SamplerState) : SamplerState :=
  if s.timerActive then samplerRun s else s

/-! ### Weather-station reporting (src/weather_station/weather_station.py)

`publish_data` writes the interval's sample to three destinations in
source order: console (`print`), display (`oled`), and the remote MQTT
channel (`connect`/`publish`/`disconnect`).  The function body contains no
`try`/`except`, so a step that raises aborts the remaining steps and the
exception propagates to the caller.  Each destination step carries the
value it renders.
-/

inductive Dest where
  | console
  | display
  | remote
deriving DecidableEq, Repr

inductive Step where
  | consoleTemp (v : ℚ)
  | consoleHumidity (v : ℚ)
  | displayTemp (v : ℚ)
  | displayHumidity (v : ℚ)
  | mqttConnect
  | mqttPublish (temp humidity : ℚ)
  | mqttDisconnect
deriving DecidableEq, Repr

/-- Destination a step belongs to. -/
def Step.dest : Step → Dest
  | .consoleTemp _ => .console
  | .consoleHumidity _ => .console
  | .displayTemp _ => .display
  | .displayHumidity _ => .display
  | .mqttConnect => .remote
  | .mqttPublish _ _ => .remote
  | .mqttDisconnect => .remote

/-- The destination steps of `publish_data`, in source order. -/
def publishDataSteps (temp humidity : ℚ) : List Step :=
  [Step.consoleTemp temp, Step.consoleHumidity humidity,
   Step.displayTemp temp, Step.displayHumidity humidity,
   Step.mqttConnect, Step.mqttPublish temp humidity, Step.mqttDisconnect]

/-- Execution of a step list with no exception handler: steps run in order;
the first step on which `fails` holds raises, performing nothing further,
and the exception escapes (second component `false`).  Returns the list of
steps actually performed and whether execution completed normally. -/
def runSteps (fails : Step → Bool) : List Step → List Step × Bool
  | [] => ([], true)
  | st :: rest =>
    if fails st then ([], false)
    else
      let r := runSteps fails rest
      (st :: r.1, r.2)

/-- Embedding of one `publish_data` invocation for the interval's sampled
`(temp, humidity)`, under a fault model `fails` saying which destination
steps raise. -/
def publishData (temp humidity : ℚ) (fails : Step → Bool) : List Step × Bool :=
  runSteps fails (publishDataSteps temp humidity)

/-- Helper: a non-failing head step is performed and execution continues. -/
lemma runSteps_cons_false (fails : Step → Bool) (st : Step) (rest : List Step)
    (h : fails st = false) :
    runSteps fails (st :: rest) =
      ((st :: (runSteps fails rest).1), (runSteps fails rest).2) := by
  simp [runSteps, h]

/-- The 6-byte raw sample of the digital-converter test vector:
bytes 0,1 and 3,4 are `0x66`, so `raw_temp = raw_humidity = 26214`. -/
def c3Sample : List ℕ :=
  [0x66, 0x66, 0, 0x66, 0x66, 0]

/-- On the test vector the weather-station converter returns exactly
`(25, 40)`: `26214 / 65535 = 2 / 5`, so `175 * (2/5) - 45 = 25` and
`100 * (2/5) = 40`. -/
lemma sht31dGetData_c3Sample : sht31dGetData c3Sample false = (25, 40) := by
  simp only [sht31dGetData, sht31dRawTemp, sht31dRawHumidity, sht31dCelsius,
    c3Sample, List.getD, if_false, Prod.mk.injEq]
  norm_num

/-! ### Claims -/

/-- C1, counterexample: the claim says the RPM reported for edge count 60,
blade count 5 and interval 2 s is `60*60/(2*5*2) = 180`; the code computes
`60*60/(2*5) = 360`, because `Tachometer.main` never divides by the
interval length. -/
theorem c1_counterexample :
    tachRPM 60 5 2 ≠ (60 * 60 : ℚ) / (2 * 5 * 2) := by
  norm_num [tachRPM]

/-- C1, amended: for every edge count `c`, blade count `b > 0` and interval
`t > 0`, the RPM computed at the interval boundary equals `c*60/(2*b)` —
the interval length does not appear in the divisor, so the value is the
same for every interval length — and for `c = 0` the reported RPM is 0. -/
theorem c1_amended (c b t : ℕ) (hb : 0 < b) (ht : 0 < t) :
    tachRPM c b t = (c : ℚ) * 60 / (2 * b) ∧
      (∀ u : ℕ, 0 < u → tachRPM c b t = tachRPM c b u) ∧
      tachRPM 0 b t = 0 := by
  refine ⟨rfl, fun u _ => rfl, ?_⟩
  simp [tachRPM]

/-- C1, witness for the amended statement at `c = 60`, `b = 5`, `t = 2`. -/
theorem c1_witness :
    tachRPM 60 5 2 = (60 : ℚ) * 60 / (2 * 5) ∧
      (∀ u : ℕ, 0 < u → tachRPM 60 5 2 = tachRPM 60 5 u) ∧
      tachRPM 0 5 2 = 0 :=
  c1_amended 60 5 2 (by norm_num) (by norm_num)

/-- C2, counterexample: the claim says a session with interval 10 and
max duration 25 performs `25 / 10 = 2` reporting cycles; the code performs
exactly 1, because the loop compares `num_seconds` (which advances by the
interval each cycle) against `max_duration // sample_period`. -/
theorem c2_counterexample : tachCycles 10 25 ≠ 25 / 10 := by
  decide

/-- C2, amended: for interval `i > 0` and max duration `d`, the session
performs exactly `⌈(d / i) / i⌉` measure-report cycles (the loop bound is
`d // i` and `num_seconds` advances by `i` per cycle); in particular a
session with interval 10 and max duration 25 performs exactly 1 cycle. -/
theorem c2_amended (i d : ℕ) (hi : 0 < i) :
    tachCycles i d = (d / i + (i - 1)) / i ∧ tachCycles 10 25 = 1 :=
  ⟨tachCycles_eq i d hi, by decide⟩

/-- C2, witness for the amended statement at interval 10, max duration 25. -/
theorem c2_witness :
    tachCycles 10 25 = (25 / 10 + (10 - 1)) / 10 ∧ tachCycles 10 25 = 1 :=
  c2_amended 10 25 (by norm_num)

/-- C3, counterexample: on the raw sample with `raw_temp = 26214` the
claim says the Celsius result is within 0.1 of 45.0; the code returns
exactly 25, which is 20 away from 45. -/
theorem c3_counterexample :
    ¬ |(sht31dGetData c3Sample false).1 - 45| ≤ 1 / 10 := by
  rw [sht31dGetData_c3Sample]
  rw [abs_le]
  norm_num

/-- C3, amended: on the 6-byte raw sample whose bytes 0,1 and 3,4 are
`0x66` (`raw_temp = raw_humidity = 26214`) the digital converter returns a
Celsius temperature within 0.1 of 25.0 (in fact exactly 25) and a
relative-humidity percentage within 0.1 of 40.0 (in fact exactly 40). -/
theorem c3_amended :
    (sht31dGetData c3Sample false).1 = 25 ∧
      (sht31dGetData c3Sample false).2 = 40 ∧
      |(sht31dGetData c3Sample false).1 - 25| ≤ 1 / 10 ∧
      |(sht31dGetData c3Sample false).2 - 40| ≤ 1 / 10 := by
  rw [sht31dGetData_c3Sample]
  norm_num

/-- C4, counterexample: the claim says a supplied sample `r = 0` yields
Celsius `-50.0`; in the code a supplied `0` is falsy, so the converter
reads the sensor instead — with the ADC reading 4095 the result is 280,
not `-50`. -/
theorem c4_counterexample :
    tmp36GetTemperature 4095 (some 0) false ≠ -50 := by
  norm_num [tmp36GetTemperature, tmp36Convert]

/-- C4, amended: for every supplied raw ADC sample `r` with `0 < r ≤ 4095`
the analog converter returns `((r*3300/4095) - 500)/10`; a supplied sample
`r = 4095` yields 280.0; a supplied sample `r = 0` is falsy and makes the
converter convert a fresh ADC reading instead, and only a fresh reading of
0 yields `-50.0`. -/
theorem c4_amended (s r : ℕ) (hr : 0 < r) (hr2 : r ≤ 4095) :
    tmp36GetTemperature s (some r) false = ((r : ℚ) * 3300 / 4095 - 500) / 10 ∧
      tmp36GetTemperature s (some 4095) false = 280 ∧
      tmp36GetTemperature s (some 0) false = tmp36Convert s false ∧
      tmp36Convert 0 false = -50 := by
  refine ⟨?_, ?_, ?_, ?_⟩
  · have h0 : r ≠ 0 := Nat.pos_iff_ne_zero.mp hr
    simp [tmp36GetTemperature, tmp36Convert, h0]
  · norm_num [tmp36GetTemperature, tmp36Convert]
  · simp [tmp36GetTemperature]
  · norm_num [tmp36Convert]

/-- C4, witness for the amended statement at sensor reading 0 and supplied
sample 4095. -/
theorem c4_witness :
    tmp36GetTemperature 0 (some 4095) false = ((4095 : ℚ) * 3300 / 4095 - 500) / 10 ∧
      tmp36GetTemperature 0 (some 4095) false = 280 ∧
      tmp36GetTemperature 0 (some 0) false = tmp36Convert 0 false ∧
      tmp36Convert 0 false = -50 :=
  c4_amended 0 4095 (by norm_num) (by norm_num)

/-- C5, counterexample: `publish_data` contains no exception handler, so
when the remote destination fails the exception escapes the function
(nothing is caught), and when an earlier destination (the display) fails,
the remote publish step is never performed — contradicting the claim that
errors from one destination are caught and never prevent another
destination's success. -/
theorem c5_counterexample :
    (publishData 25 40 (fun st => decide (st.dest = Dest.remote))).2 = false ∧
      Step.mqttPublish 25 40 ∉
        (publishData 25 40 (fun st => decide (st.dest = Dest.display))).1 := by
  decide

/-- C5, amended: `publish_data` writes to console, display and the remote
channel in that source order with no exception handler.  If only remote
steps can fail, the console and display destinations still receive that
interval's output (all four of their steps are performed before the remote
section); but a remote connect failure makes the exception propagate out of
`publish_data` uncaught, and a failure of an earlier destination prevents
the later destinations from running. -/
theorem c5_amended (t h : ℚ) (fails : Step → Bool)
    (hf : ∀ st : Step, fails st = true → st.dest = Dest.remote) :
    Step.consoleTemp t ∈ (publishData t h fails).1 ∧
      Step.consoleHumidity h ∈ (publishData t h fails).1 ∧
      Step.displayTemp t ∈ (publishData t h fails).1 ∧
      Step.displayHumidity h ∈ (publishData t h fails).1 ∧
      (fails Step.mqttConnect = true → (publishData t h fails).2 = false) := by
  have hct : fails (Step.consoleTemp t) = false := by
    cases hc : fails (Step.consoleTemp t)
    · rfl
    · simpa [Step.dest] using hf _ hc
  have hch : fails (Step.consoleHumidity h) = false := by
    cases hc : fails (Step.consoleHumidity h)
    · rfl
    · simpa [Step.dest] using hf _ hc
  have hdt : fails (Step.displayTemp t) = false := by
    cases hc : fails (Step.displayTemp t)
    · rfl
    · simpa [Step.dest] using hf _ hc
  have hdh : fails (Step.displayHumidity h) = false := by
    cases hc : fails (Step.displayHumidity h)
    · rfl
    · simpa [Step.dest] using hf _ hc
  have hrun : publishData t h fails =
      (Step.consoleTemp t :: Step.consoleHumidity h :: Step.displayTemp t ::
        Step.displayHumidity h ::
          (runSteps fails [Step.mqttConnect, Step.mqttPublish t h,
            Step.mqttDisconnect]).1,
        (runSteps fails [Step.mqttConnect, Step.mqttPublish t h,
          Step.mqttDisconnect]).2) := by
    simp only [publishData, publishDataSteps,
      runSteps_cons_false fails _ _ hct, runSteps_cons_false fails _ _ hch,
      runSteps_cons_false fails _ _ hdt, runSteps_cons_false fails _ _ hdh]
  rw [hrun]
  refine ⟨by simp, by simp, by simp, by simp, fun hc => ?_⟩
  simp only [runSteps, hc, if_true]

/-- C5, witness for the amended statement with the fault model in which
exactly the remote steps fail. -/
theorem c5_witness :
    Step.consoleTemp 25 ∈
        (publishData 25 40 (fun st => decide (st.dest = Dest.remote))).1 ∧
      Step.displayHumidity 40 ∈
        (publishData 25 40 (fun st => decide (st.dest = Dest.remote))).1 ∧
      (publishData 25 40 (fun st => decide (st.dest = Dest.remote))).2 = false := by
  have h := c5_amended 25 40 (fun st => decide (st.dest = Dest.remote))
    (fun st hst => of_decide_eq_true hst)
  exact ⟨h.1, h.2.2.2.1, h.2.2.2.2 (by decide)⟩

/-- C6: the interval-boundary critical section disables interrupts, reads
the counter, resets it to zero and re-enables interrupts: it returns the
pre-reset count, leaves the counter at zero, and a second read-and-reset
performed with no edges delivered in between returns 0. -/
theorem c6_theorem (s : TachState) :
    (readAndReset s).1 = s.irq_count ∧
      ((readAndReset s).2).irq_count = 0 ∧
      (readAndReset (readAndReset s).2).1 = 0 ∧
      (disableIRQ s).irqEnabled = false ∧
      ((readAndReset s).2).irqEnabled = true := by
  exact ⟨rfl, rfl, rfl, rfl, rfl⟩

/-- C7: while the timer is active each completed deferred run advances the
elapsed-seconds counter by exactly the nominal 10 seconds (wall-clock time
does not enter the computation); as soon as the counter exceeds 1000, the
run deactivates the timer; and once the timer is inactive, any number of
further timer periods performs no deferred run and leaves the state
unchanged. -/
theorem c7_theorem (s t : SamplerState) (k : ℕ)
    (hs : s.timerActive = true) (ht : t.timerActive = false) :
    (timerTick s).seconds = s.seconds + 10 ∧
      (1000 < s.seconds + 10 → (timerTick s).timerActive = false) ∧
      timerTick^[k] t = t := by
  refine ⟨?_, ?_, ?_⟩
  · simp [timerTick, samplerRun, hs]
  · intro hgt
    simp [timerTick, samplerRun, hs, hgt]
  · have hfix : timerTick t = t := by
      simp [timerTick, ht]
    induction k with
    | zero => rfl
    | succ n ih => rw [Function.iterate_succ_apply, hfix, ih]

/-- C7, witness at a run that crosses the ceiling (seconds 995 → 1005) and
three further timer periods on the deactivated state. -/
theorem c7_witness :
    (timerTick ⟨995, true⟩).seconds = 995 + 10 ∧
      (1000 < 995 + 10 → (timerTick ⟨995, true⟩).timerActive = false) ∧
      timerTick^[3] ⟨1005, false⟩ = ⟨1005, false⟩ :=
  c7_theorem ⟨995, true⟩ ⟨1005, false⟩ 3 rfl rfl

/-- C8: for every raw temperature word in 0..65535, the direct Fahrenheit
formula `315*raw/65535 - 49` of the SHT31D drivers agrees exactly, in
rational arithmetic, with converting the Celsius formula through
`c * 9/5 + 32`. -/
theorem c8_theorem (raw_temp : ℕ) (hr : raw_temp ≤ 65535) :
    sht31dFahrenheit raw_temp = sht31dCelsius raw_temp * (9 / 5) + 32 := by
  unfold sht31dFahrenheit sht31dCelsius
  ring

/-- C8, witness at the test-vector word 26214. -/
theorem c8_witness :
    sht31dFahrenheit 26214 = sht31dCelsius 26214 * (9 / 5) + 32 :=
  c8_theorem 26214 (by norm_num)

/-- C9: a falsy supplied sample — the integer 0 for the ADC converter, the
empty byte sequence for the I2C converter — is treated exactly like no
sample: the converter converts a fresh sensor reading instead, so injecting
a raw sample of 0 does not convert 0 (with the ADC reading 4095, supplying
0 returns 280, not the conversion of 0). -/
theorem c9_theorem (s : ℕ) (bytes : List ℕ) (f : Bool) :
    tmp36GetTemperature s (some 0) f = tmp36GetTemperature s none f ∧
      sht31dGetTemperature bytes (some []) f = sht31dGetTemperature bytes none f ∧
      tmp36GetTemperature 4095 (some 0) false ≠ tmp36Convert 0 false := by
  refine ⟨rfl, rfl, ?_⟩
  norm_num [tmp36GetTemperature, tmp36Convert]

end MPS
